import Mathlib

/-!
Verification of the player state machine of the `komari` automation engine.

The definitions below are a shallow embedding of the Rust sources under
`src/backend/src/player/` (`cash_shop.rs`, `adjust.rs`, `fall.rs`, `chat.rs`,
`panic.rs`, `stall.rs`, `up_jump.rs`).  Machine integers (`i32`, `u32`) are
embedded as `Int` and `Nat`; the distances involved never approach the
overflow boundary, and every counter in the sources only ever moves by one
within `u32` range, so no wrap-around modelling is required.  Rust panics
(`unreachable!`, `expect`) are embedded as `Option.none` results.  External
collaborators (detector predicates, the RNG) are passed in as the booleans
they return on the tick under consideration, exactly as the update functions
consume them.

Some supporting modules of the repository (`ecs` transition macros,
`player/timeout.rs`, `player/moving.rs`, `player/state.rs`,
`player/actions.rs`, the minimap and bridge types) are not part of the
sources at hand; each definition standing in for them is modelled from the
specification and carries a doc comment saying so.
-/

/-- A point in minimap coordinates (`opencv` `Point` with `i32` fields). -/
structure Point where
  x : Int
  y : Int
deriving DecidableEq, Repr

/-- Modelled from the spec: the `Timeout` primitive of `player/timeout.rs`
(absent from the sources), §3: `{ current: u32, total: u32, started: bool }`. -/
structure Timeout where
  current : Nat
  total : Nat
  started : Bool
deriving DecidableEq, Repr

/-- `Timeout::default()`: all fields zero / false. -/
def Timeout.default : Timeout := ⟨0, 0, false⟩

/-- Modelled from the spec: the lifecycle phases of a `Timeout` (§3, §4.A). -/
inductive Lifecycle where
  | started (t : Timeout)
  | updated (t : Timeout)
  | ended
deriving DecidableEq, Repr

/-- Modelled from the spec: `next_timeout_lifecycle` of `player/timeout.rs`
(absent from the sources), §3: `Started` when `!started` (setting
`started = true`, `current = 0`, `total = 0`), `Ended` when the deadline is
reached, otherwise `Updated` with `current` and `total` incremented. -/
def next_timeout_lifecycle (t : Timeout) (max : Nat) : Lifecycle :=
  if !t.started then .started ⟨0, 0, true⟩
  else if max ≤ t.current then .ended
  else .updated ⟨t.current + 1, t.total + 1, true⟩

/-- Modelled from the spec: the key enum of the keyboard bridge (§6); only
the keys the embedded states refer to are listed. -/
inductive KeyKind where
  | a | b | c | d | e | f | g | h | i | j | k | l | m
  | n | o | p | q | r | s | t | u | v | w | x | y | z
  | zero | one | two | three | four | five | six | seven | eight | nine
  | space | tilde | quote | semicolon | comma | period | slash
  | esc | enter | up | down | left | right
  | f1 | f2 | f3 | f4
deriving DecidableEq, Repr

/-- Modelled from the spec: one emission on the input sink (§6):
`send_key` (press-release), `send_key_down`, `send_key_up`. -/
inductive KeyEvent where
  | press (kk : KeyKind)
  | keyDown (kk : KeyKind)
  | keyUp (kk : KeyKind)
deriving DecidableEq, Repr

/-- Modelled from the spec: the `Moving` primitive of `player/moving.rs`
(absent from the sources), §3: positional progress carried between motion
states.  The bounded intermediate list is embedded as a plain list. -/
structure Moving where
  pos : Point
  dest : Point
  exact : Bool
  intermediates : Option (List Point)
  completed : Bool
  timeout : Timeout
deriving DecidableEq, Repr

/-- `Moving::new(pos, dest, exact, intermediates)` with a default timeout
and `completed = false`, per §3 and the constructors used in the tests. -/
def Moving.new (pos dest : Point) (exact : Bool)
    (intermediates : Option (List Point)) : Moving :=
  ⟨pos, dest, exact, intermediates, false, Timeout.default⟩

/-- Builder `Moving::completed(..)` used throughout the sources. -/
def Moving.withCompleted (m : Moving) (c : Bool) : Moving := { m with completed := c }

/-- Builder `Moving::timeout_current(..)` used throughout the sources. -/
def Moving.timeout_current (m : Moving) (c : Nat) : Moving :=
  { m with timeout := { m.timeout with current := c } }

/-- Builder `Moving::timeout_started(..)` used throughout the sources. -/
def Moving.timeout_started (m : Moving) (s : Bool) : Moving :=
  { m with timeout := { m.timeout with started := s } }

/-- Builder `Moving::timeout(..)` replacing the whole timeout. -/
def Moving.withTimeout (m : Moving) (t : Timeout) : Moving := { m with timeout := t }

/-- Modelled from the spec: `is_destination_intermediate` of
`player/moving.rs` (absent from the sources); §3 says the destination is
intermediate exactly when intermediates remain. -/
def Moving.is_destination_intermediate (m : Moving) : Bool :=
  m.intermediates.isSome

/-- Modelled from the spec: the destination a distance query refers to;
with `current = true` the state's own hop destination `dest` is used, with
`current = false` the final destination (the last intermediate when any
remain, §3/§4.F). -/
def Moving.query_dest (m : Moving) (current : Bool) : Point :=
  if current then m.dest
  else
    match m.intermediates with
    | some l => l.getLast?.getD m.dest
    | none => m.dest

/-- Modelled from the spec: `x_distance_direction_from` of
`player/moving.rs` (absent from the sources): the signed direction
`dest.x - pos.x` together with its absolute value, matching the tests
(destination to the right gives a positive direction). -/
def Moving.x_distance_direction_from (m : Moving) (current : Bool)
    (pos : Point) : Int × Int :=
  let dir := (m.query_dest current).x - pos.x
  (|dir|, dir)

/-- Modelled from the spec: `y_distance_direction_from` of
`player/moving.rs` (absent from the sources), the `y` analogue. -/
def Moving.y_distance_direction_from (m : Moving) (current : Bool)
    (pos : Point) : Int × Int :=
  let dir := (m.query_dest current).y - pos.y
  (|dir|, dir)

/-- Modelled from the spec: the `ChangeAxis` trigger (§3). -/
inductive ChangeAxis where
  | horizontal
  | vertical
  | both
deriving DecidableEq, Repr

/-- Modelled from the spec: the moving lifecycle phases (§3). -/
inductive MovingLifecycle where
  | started (m : Moving)
  | updated (m : Moving)
  | ended (m : Moving)
deriving DecidableEq, Repr

/-- Modelled from the spec: `next_moving_lifecycle_with_axis` of
`player/timeout.rs` (absent from the sources).  §3 gives the precise rule:
on each tick the observed position replaces the moving's `pos`, the timeout
ticks once, `Started` is emitted on first entry, `Ended` when the timeout
expires, else `Updated`. -/
def next_moving_lifecycle_with_axis (m : Moving) (observed_pos : Point)
    (max : Nat) (_axis : ChangeAxis) : MovingLifecycle :=
  match next_timeout_lifecycle m.timeout max with
  | .started t => .started { m with pos := observed_pos, timeout := t }
  | .updated t => .updated { m with pos := observed_pos, timeout := t }
  | .ended => .ended { m with pos := observed_pos }

/-- Modelled from the spec: the `transition_if` combinator of the `ecs`
module (absent from the sources), §4.G: "select and assign" — the first
state is assigned when the condition holds, the second otherwise.  This
orientation is pinned by the repository's own tests
(`update_opening_menu_retries_when_chat_menu_not_opened` and
`update_opening_menu_fails_after_max_retries` in `chat.rs`). -/
def transition_if (cond : Bool) (a b : α) : α := if cond then a else b

/-- Modelled from the spec: the direction tag of a key action (§4.F and the
`ActionKeyDirection` values appearing in `adjust.rs`). -/
inductive ActionKeyDirection where
  | left
  | right
  | any
deriving DecidableEq, Repr

/-- Modelled from the spec: the `with` mode of a key action (§4.F). -/
inductive ActionKeyWith where
  | stationary
  | doubleJump
  | any
deriving DecidableEq, Repr

/-- Modelled from the spec: the payload of a `PlayerAction::Key` (§4.F);
only the fields the embedded states read are carried. -/
structure Key where
  key : KeyKind
  with_ : ActionKeyWith
  direction : ActionKeyDirection
deriving DecidableEq, Repr

/-- Modelled from the spec: a position as carried by an `AutoMob` action
(`Position` in the models; `stall.rs` reads its `y`). -/
structure Position where
  x : Int
  y : Int
deriving DecidableEq, Repr

/-- Modelled from the spec: the payload of a `PlayerAction::AutoMob` (§4.F);
only the mob position is read by the embedded states. -/
structure AutoMob where
  position : Position
deriving DecidableEq, Repr

/-- The panic target of `player/actions.rs` as used by `panic.rs`. -/
inductive PanicTo where
  | channel
  | town
deriving DecidableEq, Repr

/-- Modelled from the spec: the action-queue head variants (§3).  The
destination payloads of `Move` and `PingPong` are never read by the
embedded states and are omitted. -/
inductive PlayerAction where
  | autoMob (mob : AutoMob)
  | key (k : Key)
  | move
  | pingPong
  | solveRune
  | unstuck
  | panic (target : PanicTo)
deriving DecidableEq, Repr

/-- `UseKey::from_key` payload (`use_key.rs` is absent from the sources);
modelled from the spec as the key action it executes. -/
structure UseKey where
  key : Key
deriving DecidableEq, Repr

/-- `UseKey::from_key(key)`. -/
def UseKey.from_key (k : Key) : UseKey := ⟨k⟩

/-- Modelled from the spec: the `DoubleJumping` state payload
(`double_jump.rs` is absent from the sources); `adjust.rs` constructs it as
`DoubleJumping::new(moving, forced, require_stationary)`. -/
structure DoubleJumping where
  moving : Moving
  forced : Bool
  require_stationary : Bool
deriving DecidableEq, Repr

/-- `DoubleJumping::new`. -/
def DoubleJumping.new (moving : Moving) (forced require_stationary : Bool) :
    DoubleJumping :=
  ⟨moving, forced, require_stationary⟩

/-- The `Grappling` state payload (`grapple.rs`). -/
structure Grappling where
  moving : Moving
  did_y_changed : Bool
deriving DecidableEq, Repr

/-- `Grappling::new` (`grapple.rs`). -/
def Grappling.new (moving : Moving) : Grappling := ⟨moving, false⟩

/-- The `Adjusting` state payload (`adjust.rs`). -/
structure Adjusting where
  moving : Moving
  adjust_timeout : Timeout
deriving DecidableEq, Repr

/-- `Adjusting::new` (`adjust.rs`). -/
def Adjusting.new (moving : Moving) : Adjusting := ⟨moving, Timeout.default⟩

/-- `Adjusting::moving` builder (`adjust.rs`). -/
def Adjusting.withMoving (a : Adjusting) (moving : Moving) : Adjusting :=
  { a with moving := moving }

/-- The `Falling` state payload (`fall.rs`). -/
structure Falling where
  moving : Moving
  anchor : Point
  timeout_on_complete : Bool
deriving DecidableEq, Repr

/-- `Falling::new` (`fall.rs`). -/
def Falling.new (moving : Moving) (anchor : Point)
    (timeout_on_complete : Bool) : Falling :=
  ⟨moving, anchor, timeout_on_complete⟩

/-- `Falling::moving` builder (`fall.rs`). -/
def Falling.withMoving (f : Falling) (moving : Moving) : Falling :=
  { f with moving := moving }

/-- `Falling::anchor` builder (`fall.rs`). -/
def Falling.withAnchor (f : Falling) (anchor : Point) : Falling :=
  { f with anchor := anchor }

/-- The mage sub-state of `up_jump.rs`. -/
inductive MageState where
  | teleporting
  | upJumping
  | flying
deriving DecidableEq, Repr

/-- The `Mage` payload of `up_jump.rs`. -/
structure Mage where
  state : MageState
deriving DecidableEq, Repr

/-- The up-jump kind of `up_jump.rs`. -/
inductive UpJumpingKind where
  | mage (m : Mage)
  | upArrow
  | jumpKey
  | specificKey
deriving DecidableEq, Repr

/-- The `UpJumping` state payload (`up_jump.rs`). -/
structure UpJumping where
  moving : Moving
  kind : UpJumpingKind
  spam_delay : Nat
  auto_mob_wait_completion : Bool
deriving DecidableEq, Repr

/-- The sub-state of the cash-shop procedure (`cash_shop.rs`). -/
inductive CashShopState where
  | entering
  | entered (t : Timeout)
  | exitting
  | exitted
  | stalling (t : Timeout)
  | completed
deriving DecidableEq, Repr

/-- The `CashShop` state payload (`cash_shop.rs`). -/
structure CashShop where
  state : CashShopState
deriving DecidableEq, Repr

/-- `CashShop::new` (`cash_shop.rs`). -/
def CashShop.new : CashShop := ⟨.entering⟩

/-- The sub-state of the chatting procedure (`chat.rs`). -/
inductive ChatState where
  | openingMenu (t : Timeout) (retry_count : Nat)
  | typing (t : Timeout) (index : Nat)
  | completing (t : Timeout) (failed_or_done : Bool)
deriving DecidableEq, Repr

/-- The `Chatting` state payload (`chat.rs`); the bounded
`Array<char, 256>` content is embedded as a list of characters. -/
structure Chatting where
  state : ChatState
  content : List Char
deriving DecidableEq, Repr

/-- `Chatting::new` (`chat.rs`). -/
def Chatting.new (content : List Char) : Chatting :=
  ⟨.openingMenu Timeout.default 0, content⟩

/-- The sub-state of the panicking procedure (`panic.rs`). -/
inductive PanicState where
  | changingChannel (t : Timeout) (retry_count : Nat)
  | goingToTown (t : Timeout) (retry_count : Nat)
  | completing (t : Timeout) (completed : Bool)
deriving DecidableEq, Repr

/-- The `Panicking` state payload (`panic.rs`); the Rust field `to` is
renamed `to_` because `to` is reserved in Lean. -/
structure Panicking where
  state : PanicState
  to_ : PanicTo
deriving DecidableEq, Repr

/-- `Panicking::new` (`panic.rs`). -/
def Panicking.new (target : PanicTo) : Panicking :=
  { state :=
      match target with
      | .channel => .changingChannel Timeout.default 0
      | .town => .goingToTown Timeout.default 0
    to_ := target }

/-- Modelled from the spec: the `Player` tagged union (§3), restricted to
the variants the embedded update functions construct or inspect. -/
inductive Player where
  | detecting
  | idle
  | moving (dest : Point) (exact : Bool) (intermediates : Option (List Point))
  | adjusting (a : Adjusting)
  | doubleJumping (d : DoubleJumping)
  | jumping (m : Moving)
  | falling (f : Falling)
  | grappling (g : Grappling)
  | upJumping (u : UpJumping)
  | useKey (u : UseKey)
  | stalling (t : Timeout) (max : Nat)
  | cashShopThenExit (c : CashShop)
  | chatting (c : Chatting)
  | panicking (p : Panicking)
deriving DecidableEq, Repr

/-- Modelled from the spec: the minimap idle payload (§6); only the
other-player query the embedded states perform is carried. -/
structure MinimapIdle where
  has_any_other_player : Bool
deriving DecidableEq, Repr

/-- Modelled from the spec: the minimap observation (§6). -/
inductive Minimap where
  | detecting
  | idle (i : MinimapIdle)
deriving DecidableEq, Repr

/-- Modelled from the spec: the motion state `update_from_auto_mob_action`
(§4.F) selects; the selection rule lives in `player/actions.rs`, absent
from the sources, so it is carried as data (see `PlayerContext`). -/
inductive AutoMobNext where
  | stay
  | adjusting
  | doubleJumping
  | falling
  | grappling
  | upJumping
  | useKey
deriving DecidableEq, Repr

/-- Modelled from the spec: `LastMovement` of `player/state.rs` (absent
from the sources); the movement kinds committed by the movement states. -/
inductive LastMovement where
  | adjusting
  | doubleJumping
  | jumping
  | falling
  | grappling
  | upJumping
deriving DecidableEq, Repr

/-- Modelled from the spec: the configuration options read by the embedded
states (§6). -/
structure Config where
  jump_key : KeyKind
  cash_shop_key : Option KeyKind
  change_channel_key : Option KeyKind
  to_town_key : Option KeyKind
  teleport_key : Option KeyKind
  up_jump_key : Option KeyKind
  disable_double_jumping : Bool
  disable_teleport_on_fall : Bool
  up_jump_specific_key_should_jump : Bool
  up_jump_is_flight : Bool

/-- Modelled from the spec: the `PlayerContext` blackboard (§3), restricted
to the fields the embedded update functions read or write.  The action
queue head is carried directly (`action`); predicates whose computation
lives in `player/state.rs` (absent from the sources) are carried as data:
`auto_mob_reachable_y_require_update`, `double_jump_threshold` and the
auto-mob motion selector `auto_mob_selector`. -/
structure PlayerContext where
  config : Config
  last_known_pos : Option Point
  last_known_direction : ActionKeyDirection
  is_stationary : Bool
  last_movement : Option LastMovement
  stalling_timeout_state : Option Player
  stalling_buffered_stalling : Bool
  action : Option PlayerAction
  action_completed : Bool
  auto_mob_reachable_y : Option Int
  auto_mob_reachable_y_require_update : Int → Bool
  double_jump_threshold : Bool → Int
  auto_mob_selector : Int → Int → Int → AutoMobNext

/-- The `PlayerEntity` owning the state and the context (§3). -/
structure PlayerEntity where
  state : Player
  context : PlayerContext

/-- Modelled from the spec: `next_action(context)` reads the action queue
head (§6). -/
def next_action (context : PlayerContext) : Option PlayerAction :=
  context.action

/-- Modelled from the spec: `clear_action_completed` clears the in-flight
action completion flag (§7). -/
def PlayerContext.clear_action_completed (context : PlayerContext) :
    PlayerContext :=
  { context with action_completed := false }

/-- Modelled from the spec: `transition_from_action` (§4.G) marks the
action-queue head completed when the transition is terminal. -/
def PlayerContext.mark_action_completed_if (context : PlayerContext)
    (is_terminal : Bool) : PlayerContext :=
  if is_terminal then { context with action_completed := true } else context

/-- Modelled from the spec: `auto_mob_track_reachable_y` records the
reachable `y` (§4.C.5). -/
def PlayerContext.auto_mob_track_reachable_y (context : PlayerContext)
    (y : Int) : PlayerContext :=
  { context with auto_mob_reachable_y := some y }

/-- Modelled from the spec: `clear_stalling_buffer_states_if_possible`
clears the buffered-stall flag (§3, `stalling_buffered`). -/
def PlayerContext.clear_stalling_buffer_states_if_possible
    (context : PlayerContext) : PlayerContext :=
  { context with stalling_buffered_stalling := false }

/-- Modelled from the spec: `has_auto_mob_action_only` of `player/state.rs`
(absent from the sources): whether the action head is an auto-mob action. -/
def PlayerContext.has_auto_mob_action_only (context : PlayerContext) : Bool :=
  match context.action with
  | some (.autoMob _) => true
  | _ => false

/-- Modelled from the spec: `MOVE_TIMEOUT` of `player/moving.rs` (absent
from the sources), §3: about 30 ticks. -/
def MOVE_TIMEOUT : Nat := 30

/-! ## Cash shop (`cash_shop.rs`) -/

namespace CashShop

/-- `update_exitted` (`cash_shop.rs` lines 65-72): stays in `Exitted` while
player detection fails, enters `Stalling` with a fresh timeout once it
succeeds. -/
def update_exitted (cash_shop : CashShop) (failed_to_detect_player : Bool) :
    CashShop :=
  { cash_shop with
    state := transition_if failed_to_detect_player .exitted
      (.stalling Timeout.default) }

/-- `update_entering` (`cash_shop.rs`): sends the cash-shop key every tick
and advances to `Entered` once the detector reports the player in the shop. -/
def update_entering (detect_player_in_cash_shop : Bool) (key : KeyKind) :
    CashShop × List KeyEvent :=
  (⟨transition_if detect_player_in_cash_shop (.entered Timeout.default)
      .entering⟩,
   [.press key])

/-- `update_entered` (`cash_shop.rs`): waits out the 305-tick timeout. -/
def update_entered (timeout : Timeout) : CashShop :=
  match next_timeout_lifecycle timeout 305 with
  | .ended => ⟨.exitting⟩
  | .started t | .updated t => ⟨.entered t⟩

/-- `update_exitting` (`cash_shop.rs`): taps `Esc` and `Enter` until the
detector reports the player out of the shop. -/
def update_exitting (detect_player_in_cash_shop : Bool) :
    CashShop × List KeyEvent :=
  (⟨transition_if detect_player_in_cash_shop .exitting .exitted⟩,
   [.press .esc, .press .enter])

/-- `update_stalling` (`cash_shop.rs`): waits out the 90-tick timeout. -/
def update_stalling (timeout : Timeout) : CashShop :=
  match next_timeout_lifecycle timeout 90 with
  | .ended => ⟨.completed⟩
  | .started t | .updated t => ⟨.stalling t⟩

end CashShop

/-- `update_cash_shop_state` (`cash_shop.rs` lines 36-63).  The detector
result `detect_player_in_cash_shop` is passed in as the boolean it returns
this tick; `State::Completed` on entry is `unreachable!` (`none`). -/
def update_cash_shop_state (player : PlayerEntity) (cash_shop : CashShop)
    (failed_to_detect_player detect_player_in_cash_shop : Bool) :
    Option (PlayerEntity × List KeyEvent) :=
  match player.context.config.cash_shop_key with
  | none =>
      some ({ player with
              state := .idle,
              context := player.context.clear_action_completed }, [])
  | some key =>
      let finish := fun (r : CashShop × List KeyEvent) =>
        some ({ player with
                state := transition_if (r.1.state == CashShopState.completed)
                  .idle (.cashShopThenExit r.1) }, r.2)
      match cash_shop.state with
      | .entering => finish (CashShop.update_entering detect_player_in_cash_shop key)
      | .entered t => finish (CashShop.update_entered t, [])
      | .exitting => finish (CashShop.update_exitting detect_player_in_cash_shop)
      | .exitted => finish (CashShop.update_exitted cash_shop failed_to_detect_player, [])
      | .stalling t => finish (CashShop.update_stalling t, [])
      | .completed => none

/-! ## Stalling (`stall.rs`) -/

/-- `update_stalling_state` (`stall.rs` lines 22-57).  On `Ended` the
one-shot stash `stalling_timeout_state` is taken (leaving `none`) and its
value, or `Idle`, becomes the next state; an auto-mob action whose terminal
state requires reachable-`y` re-solidification restarts the stall while the
player is not stationary.  The `unreachable!` action arms are `none`. -/
def update_stalling_state (player : PlayerEntity) (timeout : Timeout)
    (max_timeout : Nat) : Option PlayerEntity :=
  let (next_state, context) :=
    match next_timeout_lifecycle timeout max_timeout with
    | .started t => (Player.stalling t max_timeout, player.context)
    | .updated t => (Player.stalling t max_timeout, player.context)
    | .ended =>
        (player.context.stalling_timeout_state.getD .idle,
         { player.context with stalling_timeout_state := none })
  let is_terminal : Bool := next_state == Player.idle
  match next_action player.context with
  | some (.autoMob mob) =>
      if is_terminal && context.auto_mob_reachable_y_require_update mob.position.y then
        if !context.is_stationary then
          some { state := .stalling Timeout.default max_timeout, context := context }
        else
          let context := context.auto_mob_track_reachable_y mob.position.y
          some { state := next_state,
                 context := context.mark_action_completed_if is_terminal }
      else
        some { state := next_state,
               context := context.mark_action_completed_if is_terminal }
  | some .pingPong | some (.key _) | some .move =>
      some { state := next_state,
             context := context.mark_action_completed_if is_terminal }
  | some .solveRune | none => some { state := next_state, context := context }
  | some .unstuck | some (.panic _) => none

/-! ## Chatting (`chat.rs`) -/

/-- `to_key_kind` (`chat.rs` lines 156-208): maps typeable characters to
keys; upper and lower case letters map to the same key, as do the two
characters sharing a physical key (backquote with tilde, apostrophe with
double quote — written by code point to keep the source's pairs). -/
def to_key_kind (character : Char) : Option KeyKind :=
  match character with
  | 'A' | 'a' => some .a
  | 'B' | 'b' => some .b
  | 'C' | 'c' => some .c
  | 'D' | 'd' => some .d
  | 'E' | 'e' => some .e
  | 'F' | 'f' => some .f
  | 'G' | 'g' => some .g
  | 'H' | 'h' => some .h
  | 'I' | 'i' => some .i
  | 'J' | 'j' => some .j
  | 'K' | 'k' => some .k
  | 'L' | 'l' => some .l
  | 'M' | 'm' => some .m
  | 'N' | 'n' => some .n
  | 'O' | 'o' => some .o
  | 'P' | 'p' => some .p
  | 'Q' | 'q' => some .q
  | 'R' | 'r' => some .r
  | 'S' | 's' => some .s
  | 'T' | 't' => some .t
  | 'U' | 'u' => some .u
  | 'V' | 'v' => some .v
  | 'W' | 'w' => some .w
  | 'X' | 'x' => some .x
  | 'Y' | 'y' => some .y
  | 'Z' | 'z' => some .z
  | '0' => some .zero
  | '1' => some .one
  | '2' => some .two
  | '3' => some .three
  | '4' => some .four
  | '5' => some .five
  | '6' => some .six
  | '7' => some .seven
  | '8' => some .eight
  | '9' => some .nine
  | ' ' => some .space
  | ';' => some .semicolon
  | ',' => some .comma
  | '.' => some .period
  | '/' => some .slash
  | c =>
      if c = Char.ofNat 96 ∨ c = Char.ofNat 126 then some .tilde
      else if c = Char.ofNat 39 ∨ c = Char.ofNat 34 then some .quote
      else none

namespace Chat

/-- `MAX_RETRY` (`chat.rs`). -/
def MAX_RETRY : Nat := 3

/-- `update_opening_menu` (`chat.rs` lines 75-103): taps `Enter` on
`Started`; at `Ended`, proceeds to `Typing` when the chat menu is detected,
otherwise retries (reusing the expired timeout) up to `MAX_RETRY`, then
fails over to `Completing` with the flag false. -/
def update_opening_menu (detect_chat_menu_opened : Bool)
    (chatting : Chatting) : Option (Chatting × List KeyEvent) :=
  match chatting.state with
  | .openingMenu timeout retry_count =>
      match next_timeout_lifecycle timeout 35 with
      | .started t =>
          some ({ chatting with state := .openingMenu t retry_count },
                [.press .enter])
      | .ended =>
          if detect_chat_menu_opened then
            some ({ chatting with state := .typing Timeout.default 0 }, [])
          else
            some ({ chatting with
                    state := transition_if (decide (retry_count < MAX_RETRY))
                      (.openingMenu timeout (retry_count + 1))
                      (.completing timeout false) }, [])
      | .updated t =>
          some ({ chatting with state := .openingMenu t retry_count }, [])
  | _ => none

/-- `update_typing` (`chat.rs` lines 105-137): every fourth tick converts
the character at `index` to a key and sends it; an unmappable or missing
character falls over to `Completing`; after the last character `Enter` is
sent and the state moves to `Completing`. -/
def update_typing (chatting : Chatting) : Option (Chatting × List KeyEvent) :=
  match chatting.state with
  | .typing timeout index =>
      match next_timeout_lifecycle timeout 3 with
      | .started t | .updated t =>
          some ({ chatting with state := .typing t index }, [])
      | .ended =>
          match (chatting.content.get? index).bind to_key_kind with
          | none =>
              some ({ chatting with
                      state := .completing Timeout.default false }, [])
          | some key =>
              if index + 1 < chatting.content.length then
                some ({ chatting with
                        state := .typing Timeout.default (index + 1) },
                      [.press key])
              else
                some ({ chatting with
                        state := .completing Timeout.default false },
                      [.press key, .press .enter])
  | _ => none

/-- `update_completing` (`chat.rs` lines 139-154): waits out the 35-tick
timeout; at `Ended` taps `Esc` when the chat menu is still open and marks
the procedure done. -/
def update_completing (detect_chat_menu_opened : Bool)
    (chatting : Chatting) : Option (Chatting × List KeyEvent) :=
  match chatting.state with
  | .completing timeout _ =>
      match next_timeout_lifecycle timeout 35 with
      | .started t | .updated t =>
          some ({ chatting with state := .completing t false }, [])
      | .ended =>
          some ({ chatting with state := .completing timeout true },
                if detect_chat_menu_opened then [.press .esc] else [])
  | _ => none

/-- The sub-state dispatch at the head of `update_chatting_state`
(`chat.rs` lines 53-57). -/
def step (detect_chat_menu_opened : Bool) (chatting : Chatting) :
    Option (Chatting × List KeyEvent) :=
  match chatting.state with
  | .openingMenu _ _ => update_opening_menu detect_chat_menu_opened chatting
  | .typing _ _ => update_typing chatting
  | .completing _ _ => update_completing detect_chat_menu_opened chatting

end Chat

/-- `matches!(chatting.state, State::Completing(_, true))`
(`chat.rs` line 59). -/
def Chatting.completed (c : Chatting) : Bool :=
  match c.state with
  | .completing _ true => true
  | _ => false

/-- `update_chatting_state` (`chat.rs` lines 48-73): runs the sub-state
update, then hands the result back through the action arbitrator, force
cancelling to `Idle` when no action drove the chat. -/
def update_chatting_state (player : PlayerEntity) (chatting : Chatting)
    (detect_chat_menu_opened : Bool) :
    Option (PlayerEntity × List KeyEvent) :=
  match Chat.step detect_chat_menu_opened chatting with
  | none => none
  | some (chatting, ev) =>
      let player_next_state :=
        if chatting.completed then Player.idle else .chatting chatting
      match next_action player.context with
      | some _ =>
          some ({ player with
                  state := player_next_state,
                  context := player.context.mark_action_completed_if
                    (player_next_state == Player.idle) }, ev)
      | none => some ({ player with state := .idle }, ev)

/-! ## Panicking (`panic.rs`) -/

namespace Panic

/-- `MAX_RETRY` (`panic.rs`). -/
def MAX_RETRY : Nat := 3

/-- `update_changing_channel` (`panic.rs` lines 98-164): opens the change
channel menu (sending the key on `Started` while the menu is not yet open),
arrows `Right` and confirms `Enter` at the tuned ticks, and at `Ended`
either completes (minimap no longer idle), retries, or completes with the
flag set once retries are exhausted. -/
def update_changing_channel (detect_change_channel_menu_opened : Bool)
    (panicking : Panicking) (minimap_state : Minimap) (key : KeyKind) :
    Option (Panicking × List KeyEvent) :=
  match panicking.state with
  | .changingChannel timeout retry_count =>
      let max_timeout := if retry_count == 0 then 220 else 50
      match next_timeout_lifecycle timeout max_timeout with
      | .started t =>
          some ({ panicking with state := .changingChannel t retry_count },
                if !detect_change_channel_menu_opened then [.press key] else [])
      | .ended =>
          if !(match minimap_state with | .idle _ => true | .detecting => false) then
            some ({ panicking with state := .completing Timeout.default false }, [])
          else
            some ({ panicking with
                    state := transition_if (decide (retry_count < MAX_RETRY))
                      (.changingChannel Timeout.default (retry_count + 1))
                      (.completing Timeout.default true) }, [])
      | .updated t =>
          let press_right_at := if retry_count == 0 then 170 else 15
          let press_enter_at := if retry_count == 0 then 200 else 30
          let ev :=
            if t.current == press_right_at then
              if detect_change_channel_menu_opened then [KeyEvent.press .right] else []
            else if t.current == press_enter_at then
              if detect_change_channel_menu_opened then [KeyEvent.press .enter] else []
            else []
          some ({ panicking with state := .changingChannel t retry_count }, ev)
  | _ => none

/-- `update_going_to_town` (`panic.rs` lines 166-195): sends the town key
on `Started`; at `Ended` confirms the popup with `Enter` and completes, or
retries while no popup shows and retries remain. -/
def update_going_to_town (has_confirm_button : Bool) (panicking : Panicking)
    (key : KeyKind) : Option (Panicking × List KeyEvent) :=
  match panicking.state with
  | .goingToTown timeout retry_count =>
      match next_timeout_lifecycle timeout 90 with
      | .started t =>
          some ({ panicking with state := .goingToTown t retry_count },
                [.press key])
      | .ended =>
          some ({ panicking with
                  state := transition_if
                    (!has_confirm_button && decide (retry_count < MAX_RETRY))
                    (.goingToTown Timeout.default (retry_count + 1))
                    (.completing Timeout.default true) },
                if has_confirm_button then [.press .enter] else [])
      | .updated t =>
          some ({ panicking with state := .goingToTown t retry_count }, [])
  | _ => none

/-- `update_completing` (`panic.rs` lines 197-224): for a town panic,
completes immediately; for a channel panic, waits out the 245-tick timeout
and at `Ended` cycles back to `ChangingChannel` exactly when the minimap is
idle with another player present, resets on `Detecting`, and completes
otherwise. -/
def update_completing (panicking : Panicking) (minimap_state : Minimap) :
    Option Panicking :=
  match panicking.state with
  | .completing timeout completed =>
      if panicking.to_ == PanicTo.town then
        some { panicking with state := .completing timeout true }
      else
        match next_timeout_lifecycle timeout 245 with
        | .ended =>
            match minimap_state with
            | .idle idle =>
                some { panicking with
                       state := transition_if idle.has_any_other_player
                         (.changingChannel Timeout.default 0)
                         (.completing timeout true) }
            | .detecting =>
                some { panicking with state := .completing Timeout.default false }
        | .started t | .updated t =>
            some { panicking with state := .completing t completed }
  | _ => none

/-- The sub-state dispatch at the head of `update_panicking_state`
(`panic.rs` lines 67-73). -/
def step (panicking : Panicking) (minimap_state : Minimap)
    (detect_change_channel_menu_opened has_confirm_button : Bool)
    (change_channel_key to_town_key : KeyKind) :
    Option (Panicking × List KeyEvent) :=
  match panicking.state with
  | .changingChannel _ _ =>
      update_changing_channel detect_change_channel_menu_opened panicking
        minimap_state change_channel_key
  | .goingToTown _ _ => update_going_to_town has_confirm_button panicking to_town_key
  | .completing _ _ => (update_completing panicking minimap_state).map (·, [])

end Panic

/-- `matches!(panicking.state, State::Completing(_, true))`
(`panic.rs` line 75). -/
def Panicking.completed (p : Panicking) : Bool :=
  match p.state with
  | .completing _ true => true
  | _ => false

/-- `update_panicking_state` (`panic.rs` lines 46-96): aborts to `Idle`
when either panic key is missing, runs the sub-state update, and routes the
result through the action arbitrator — without an action, a town panic
continues with its computed state while any other panic is force cancelled
to `Idle`. -/
def update_panicking_state (player : PlayerEntity) (minimap_state : Minimap)
    (panicking : Panicking)
    (detect_change_channel_menu_opened has_confirm_button : Bool) :
    Option (PlayerEntity × List KeyEvent) :=
  match player.context.config.change_channel_key with
  | none =>
      some ({ player with
              state := .idle,
              context := player.context.clear_action_completed }, [])
  | some change_channel_key =>
      match player.context.config.to_town_key with
      | none =>
          some ({ player with
                  state := .idle,
                  context := player.context.clear_action_completed }, [])
      | some to_town_key =>
          match Panic.step panicking minimap_state
              detect_change_channel_menu_opened has_confirm_button
              change_channel_key to_town_key with
          | none => none
          | some (panicking2, ev) =>
              let player_next_state :=
                if panicking2.completed then Player.idle
                else .panicking panicking2
              match next_action player.context with
              | some _ =>
                  some ({ player with
                          state := player_next_state,
                          context := player.context.mark_action_completed_if
                            (player_next_state == Player.idle) }, ev)
              | none =>
                  some ({ player with
                          state := transition_if
                            (panicking.to_ == PanicTo.town)
                            player_next_state .idle }, ev)

/-! ## Auto-mob arbitration (modelled) -/

/-- Modelled from the spec: `update_from_auto_mob_action` of
`player/actions.rs` (absent from the sources).  §4.F: it "selects the next
motion state (Adjusting, DoubleJumping, Falling, Grappling, UpJumping,
UseKey) per distance/direction"; the selection rule itself is not given, so
it is carried as data in the context (`auto_mob_selector`), and every
selected state is built fresh at the transition point, per §3 ("every state
instance is created at the point of transition from another state"). -/
def update_from_auto_mob_action (player : PlayerEntity) (_minimap : Minimap)
    (mob : AutoMob) (x_distance x_direction y_distance : Int) : PlayerEntity :=
  let pos := player.context.last_known_pos.getD ⟨0, 0⟩
  let dest : Point := ⟨mob.position.x, mob.position.y⟩
  let fresh := Moving.new pos dest false none
  match player.context.auto_mob_selector x_distance x_direction y_distance with
  | .stay => player
  | .adjusting => { player with state := .adjusting (Adjusting.new fresh) }
  | .doubleJumping =>
      { player with state := .doubleJumping (DoubleJumping.new fresh false false) }
  | .falling => { player with state := .falling (Falling.new fresh pos false) }
  | .grappling => { player with state := .grappling (Grappling.new fresh) }
  | .upJumping =>
      { player with state := .upJumping ⟨fresh, .jumpKey, 7, false⟩ }
  | .useKey =>
      { player with
        state := .useKey (UseKey.from_key
          ⟨player.context.config.jump_key, .any, .any⟩) }

/-! ## Adjusting (`adjust.rs`) -/

/-- `ADJUSTING_SHORT_THRESHOLD` (`adjust.rs`). -/
def ADJUSTING_SHORT_THRESHOLD : Int := 1

/-- `ADJUSTING_MEDIUM_THRESHOLD` (`adjust.rs`). -/
def ADJUSTING_MEDIUM_THRESHOLD : Int := 3

/-- `ADJUSTING_SHORT_TIMEOUT` (`adjust.rs`). -/
def ADJUSTING_SHORT_TIMEOUT : Nat := MOVE_TIMEOUT + 3

/-- `Adjusting::update_adjusting` (`adjust.rs` lines 52-65): paces a key
tap through the inner `adjust_timeout`, sending the release/press pair only
on the `Started` tick. -/
def Adjusting.update_adjusting (a : Adjusting)
    (keys : Option (KeyKind × KeyKind)) : Adjusting × List KeyEvent :=
  match next_timeout_lifecycle a.adjust_timeout ADJUSTING_SHORT_TIMEOUT with
  | .started t =>
      match keys with
      | some (up_key, down_key) =>
          ({ a with adjust_timeout := t }, [.keyUp up_key, .press down_key])
      | none => ({ a with adjust_timeout := t }, [])
  | .ended => ({ a with adjust_timeout := Timeout.default }, [])
  | .updated t => ({ a with adjust_timeout := t }, [])

/-- `USE_KEY_Y_THRESHOLD` (`adjust.rs`, local to `update_from_action`). -/
def USE_KEY_Y_THRESHOLD : Int := 2

/-- `update_from_action` of `adjust.rs` (lines 166-230): action-aware early
transitions after the movement update; the `unreachable!` arm (PingPong,
Unstuck and Panic actions never drive `Adjusting`) is `none`. -/
def adjust_update_from_action (player : PlayerEntity)
    (minimap_state : Minimap) (moving : Moving) : Option PlayerEntity :=
  let cur_pos := moving.pos
  let context := player.context
  let (x_distance, x_direction) := moving.x_distance_direction_from false cur_pos
  let (y_distance, _) := moving.y_distance_direction_from false cur_pos
  match next_action context with
  | some (.key kk) =>
      match kk.with_ with
      | .doubleJump =>
          if !moving.completed || 0 < y_distance then some player
          else
            some { player with
                   state := transition_if
                     (kk.direction == ActionKeyDirection.any
                       || kk.direction == context.last_known_direction)
                     (.doubleJumping (DoubleJumping.new
                       ((moving.withTimeout Timeout.default).withCompleted false)
                       true false))
                     (.useKey (UseKey.from_key kk)) }
      | .any =>
          if moving.completed && y_distance ≤ USE_KEY_Y_THRESHOLD then
            some { player with state := .useKey (UseKey.from_key kk) }
          else some player
      | .stationary => some player
  | some (.autoMob mob) =>
      some (update_from_auto_mob_action player minimap_state mob
        x_distance x_direction y_distance)
  | none | some .solveRune | some .move => some player
  | some .pingPong | some .unstuck | some (.panic _) => none

/-- `update_adjusting_state` (`adjust.rs` lines 72-164).  On `Updated`,
walks while the `x` residual is at least the medium threshold, taps through
the inner `adjust_timeout` for short or exact residuals — freezing the
outer timeout by decrementing `current` while the inner adjust is started —
and completes when no direction is needed.  Missing `last_known_pos`
(the `expect`) and a non-`Adjusting` state (the `panic!`) are `none`. -/
def update_adjusting_state (player : PlayerEntity) (minimap_state : Minimap) :
    Option (PlayerEntity × List KeyEvent) :=
  match player.state with
  | .adjusting adjusting =>
      match player.context.last_known_pos with
      | none => none
      | some cur_pos =>
          let context := player.context
          let moving := adjusting.moving
          let is_intermediate := moving.is_destination_intermediate
          match next_moving_lifecycle_with_axis moving cur_pos MOVE_TIMEOUT .both with
          | .started moving =>
              some ({ player with
                      state := .adjusting (adjusting.withMoving moving),
                      context := { context with last_movement := some .adjusting } },
                    [])
          | .ended moving =>
              some ({ player with
                      state := .moving moving.dest moving.exact moving.intermediates },
                    [.keyUp .right, .keyUp .left])
          | .updated moving =>
              let threshold := context.double_jump_threshold is_intermediate
              let (x_distance, x_direction) :=
                moving.x_distance_direction_from true moving.pos
              if !context.config.disable_double_jumping
                  && threshold ≤ x_distance then
                some ({ player with
                        state := .moving moving.dest moving.exact moving.intermediates },
                      [])
              else
                let adjusting_started := adjusting.adjust_timeout.started
                let (moving, adjusting, context, ev) :=
                  if !moving.completed then
                    let moving :=
                      if adjusting_started then
                        moving.timeout_current (moving.timeout.current - 1)
                      else moving
                    let should_adjust_medium :=
                      !adjusting_started
                        && decide (ADJUSTING_MEDIUM_THRESHOLD ≤ x_distance)
                    let should_adjust_short :=
                      adjusting_started
                        || (moving.exact
                          && decide (ADJUSTING_SHORT_THRESHOLD ≤ x_distance))
                    let direction :
                        Option (KeyKind × KeyKind × ActionKeyDirection) :=
                      if 0 < x_direction then some (.right, .left, .right)
                      else if x_direction < 0 then some (.left, .right, .left)
                      else none
                    match should_adjust_medium, should_adjust_short, direction with
                    | true, _, some (down_key, up_key, dir) =>
                        (moving, adjusting,
                         { context with last_known_direction := dir },
                         [.keyUp up_key, .keyDown down_key])
                    | false, true, some (down_key, up_key, dir) =>
                        let (adjusting, ev) :=
                          adjusting.update_adjusting (some (up_key, down_key))
                        (moving, adjusting,
                         { context with last_known_direction := dir }, ev)
                    | _, _, _ =>
                        if adjusting_started then
                          let (adjusting, ev) := adjusting.update_adjusting none
                          (moving, adjusting, context, ev)
                        else
                          (moving.withCompleted true, adjusting, context,
                           [.keyUp .left, .keyUp .right])
                  else (moving, adjusting, context, [])
                let next_moving :=
                  if !moving.completed then moving
                  else if moving.exact
                      && decide (ADJUSTING_SHORT_THRESHOLD ≤ x_distance) then
                    (moving.withCompleted false).timeout_current 0
                  else moving.timeout_current MOVE_TIMEOUT
                let player2 :=
                  { player with
                    context := context,
                    state := .adjusting (adjusting.withMoving next_moving) }
                (adjust_update_from_action player2 minimap_state moving).map
                  (fun pe => (pe, ev))
  | _ => none

/-! ## Falling (`fall.rs`) -/

/-- `FALLING_TO_USE_KEY_THRESHOLD` (`fall.rs`). -/
def FALLING_TO_USE_KEY_THRESHOLD : Int := 5

/-- `STOP_DOWN_KEY_TICK` (`fall.rs`). -/
def STOP_DOWN_KEY_TICK : Nat := 3

/-- `TIMEOUT` of `fall.rs` (named apart from the other per-state timeouts). -/
def FALL_TIMEOUT : Nat := MOVE_TIMEOUT + 3

/-- `TELEPORT_FALL_THRESHOLD` (`fall.rs`). -/
def TELEPORT_FALL_THRESHOLD : Int := 16

/-- `update_from_action` of `fall.rs` (lines 157-215); the `unreachable!`
arm (Unstuck and Panic actions never drive `Falling`) is `none`. -/
def fall_update_from_action (player : PlayerEntity) (minimap_state : Minimap)
    (moving : Moving) : Option (PlayerEntity × List KeyEvent) :=
  let cur_pos := moving.pos
  let (y_distance, y_direction) := moving.y_distance_direction_from true cur_pos
  let has_teleport_key := player.context.config.teleport_key.isSome
  match next_action player.context with
  | some (.autoMob mob) =>
      if moving.completed && moving.is_destination_intermediate
          && decide (0 ≤ y_direction) then
        some ({ player with
                state := .moving moving.dest moving.exact moving.intermediates },
              [.keyUp .down])
      else if has_teleport_key && !moving.completed then
        some (player, [])
      else
        let (x_distance, x_direction) :=
          moving.x_distance_direction_from false cur_pos
        let (y_distance2, _) := moving.y_distance_direction_from false cur_pos
        some (update_from_auto_mob_action player minimap_state mob
          x_distance x_direction y_distance2, [])
  | some (.key kk) =>
      match kk.with_ with
      | .any =>
          if !has_teleport_key && moving.completed
              && y_distance < FALLING_TO_USE_KEY_THRESHOLD then
            some ({ player with state := .useKey (UseKey.from_key kk) }, [])
          else some (player, [])
      | .stationary | .doubleJump => some (player, [])
  | some .pingPong | some .move | some .solveRune | none => some (player, [])
  | some .unstuck | some (.panic _) => none

/-- `update_falling_state` (`fall.rs` lines 75-154).  On `Started` it
stalls for buffered stalling or until stationary (rewinding the timeout and
re-anchoring), aborts to `Moving` when already at or below the destination,
and otherwise holds `Down` and taps the jump (or teleport) key; on
`Updated` it releases `Down` at the stop tick, marks `completed` once the
position has dropped below the anchor, and drives the timeout to its
maximum on completion when `timeout_on_complete` is set. -/
def update_falling_state (player : PlayerEntity) (minimap_state : Minimap) :
    Option (PlayerEntity × List KeyEvent) :=
  match player.state with
  | .falling falling =>
      match player.context.last_known_pos with
      | none => none
      | some cur_pos =>
          match next_moving_lifecycle_with_axis falling.moving cur_pos
              FALL_TIMEOUT .vertical with
          | .started moving =>
              if player.context.stalling_buffered_stalling then
                some ({ player with
                        state := .falling
                          (falling.withMoving (moving.timeout_started false)),
                        context :=
                          player.context.clear_stalling_buffer_states_if_possible },
                      [])
              else if !player.context.is_stationary then
                some ({ player with
                        state := .falling
                          ((falling.withMoving
                            (moving.timeout_started false)).withAnchor moving.pos) },
                      [])
              else
                let (y_distance, y_direction) :=
                  moving.y_distance_direction_from true moving.pos
                if 0 ≤ y_direction then
                  some ({ player with
                          state := .moving moving.dest moving.exact
                            moving.intermediates }, [])
                else
                  let can_teleport :=
                    !player.context.config.disable_teleport_on_fall
                      && player.context.config.teleport_key.isSome
                      && decide (y_distance < TELEPORT_FALL_THRESHOLD)
                  let tap :=
                    match can_teleport, player.context.config.teleport_key with
                    | true, some teleport_key => KeyEvent.press teleport_key
                    | _, _ => KeyEvent.press player.context.config.jump_key
                  some ({ player with
                          state := .falling (falling.withMoving moving),
                          context :=
                            { player.context with last_movement := some .falling } },
                        [.keyDown .down, tap])
          | .ended moving =>
              some ({ player with
                      state := .moving moving.dest moving.exact moving.intermediates },
                    [.keyUp .down])
          | .updated moving =>
              let ev1 :=
                if moving.timeout.total == STOP_DOWN_KEY_TICK then
                  [KeyEvent.keyUp .down]
                else []
              let moving :=
                if !moving.completed then
                  if moving.pos.y - falling.anchor.y < 0 then
                    moving.withCompleted true
                  else moving
                else if falling.timeout_on_complete then
                  moving.timeout_current FALL_TIMEOUT
                else moving
              let player2 :=
                { player with state := .falling (falling.withMoving moving) }
              (fall_update_from_action player2 minimap_state moving).map
                (fun pe => (pe.1, ev1 ++ pe.2))
  | _ => none

/-! ## Up-jumping (`up_jump.rs`) -/

/-- `SPAM_DELAY` (`up_jump.rs`). -/
def SPAM_DELAY : Nat := 7

/-- `SOFT_SPAM_DELAY` (`up_jump.rs`). -/
def SOFT_SPAM_DELAY : Nat := 12

/-- `SOFT_UP_JUMP_THRESHOLD` (`up_jump.rs`). -/
def SOFT_UP_JUMP_THRESHOLD : Int := 16

/-- `up_jumping_kind` (`up_jump.rs` lines 401-410). -/
def up_jumping_kind (up_jump_key : Option KeyKind) (has_teleport_key : Bool) :
    UpJumpingKind :=
  match up_jump_key, has_teleport_key with
  | some _, true | none, true => .mage ⟨.teleporting⟩
  | some .up, false => .upArrow
  | none, false => .jumpKey
  | some _, false => .specificKey

/-- `UpJumping::new` (`up_jump.rs` lines 76-98): picks the soft spam delay
exactly when the specific up-jump key is not configured to also jump and
the initial `y` residual is within the soft threshold.  The RNG draw
`rng.random_bool(0.5)` is passed in as the boolean it returned. -/
def UpJumping.new (moving : Moving) (random_bool : Bool)
    (player_context : PlayerContext) : UpJumping :=
  let (y_distance, _) := moving.y_distance_direction_from true moving.pos
  let spam_delay :=
    if !player_context.config.up_jump_specific_key_should_jump
        && decide (y_distance ≤ SOFT_UP_JUMP_THRESHOLD) then
      SOFT_SPAM_DELAY
    else SPAM_DELAY
  let auto_mob_wait_completion :=
    player_context.has_auto_mob_action_only && random_bool
  let kind := up_jumping_kind player_context.config.up_jump_key
    player_context.config.teleport_key.isSome
  ⟨moving, kind, spam_delay, auto_mob_wait_completion⟩

/-! ## Fixtures and result predicates -/

/-- A concrete configuration used by the concrete instantiations below. -/
def baseConfig : Config :=
  { jump_key := .space
    cash_shop_key := some .f1
    change_channel_key := some .f1
    to_town_key := some .f2
    teleport_key := none
    up_jump_key := none
    disable_double_jumping := false
    disable_teleport_on_fall := false
    up_jump_specific_key_should_jump := false
    up_jump_is_flight := false }

/-- A concrete context used by the concrete instantiations below. -/
def baseContext : PlayerContext :=
  { config := baseConfig
    last_known_pos := some ⟨0, 0⟩
    last_known_direction := .any
    is_stationary := false
    last_movement := none
    stalling_timeout_state := none
    stalling_buffered_stalling := false
    action := none
    action_completed := true
    auto_mob_reachable_y := none
    auto_mob_reachable_y_require_update := fun _ => false
    double_jump_threshold := fun _ => 25
    auto_mob_selector := fun _ _ _ => .stay }

/-- The player state carried by an update result. -/
def resultState (r : Option (PlayerEntity × List KeyEvent)) : Option Player :=
  r.map fun pe => pe.1.state

/-- The player state carried by a stalling update result. -/
def stallResultState (r : Option PlayerEntity) : Option Player :=
  r.map fun pe => pe.state

/-- Every `OpeningMenu` retry counter in the chatting state is within
`MAX_RETRY`. -/
def Chatting.retry_le (c : Chatting) : Prop :=
  ∀ t r, c.state = .openingMenu t r → r ≤ Chat.MAX_RETRY

/-- Whenever the update result is an `Adjusting` state, its outer moving
timeout `current` is at most `n`. -/
def adjusting_current_le (r : Option (PlayerEntity × List KeyEvent))
    (n : Nat) : Prop :=
  ∀ pe ev a2, r = some (pe, ev) → pe.state = .adjusting a2 →
    a2.moving.timeout.current ≤ n

/-- Whenever the update result is a `Falling` state, its moving is
completed. -/
def falling_completed_after (r : Option (PlayerEntity × List KeyEvent)) :
    Prop :=
  ∀ pe ev f2, r = some (pe, ev) → pe.state = .falling f2 →
    f2.moving.completed = true

/-- Whenever the panicking update result is a `Panicking` player in the
`ChangingChannel` sub-state, the minimap is idle with another player
present and the `Completing` timeout `t` has reached its `Ended` phase. -/
def panic_completing_to_changing
    (r : Option (PlayerEntity × List KeyEvent)) (minimap_state : Minimap)
    (t : Timeout) : Prop :=
  ∀ pe ev pk t2 r2, r = some (pe, ev) → pe.state = .panicking pk →
    pk.state = .changingChannel t2 r2 →
    (∃ idle, minimap_state = .idle idle ∧ idle.has_any_other_player = true)
    ∧ next_timeout_lifecycle t 245 = .ended

/-- The auto-mob restart guard of `update_stalling_state` at the `Ended`
phase (`stall.rs` lines 35-44): the taken stash makes the next state
terminal, the mob's `y` requires reachable-`y` re-solidification, and the
player is not stationary. -/
def stalling_restart (context : PlayerContext) : Bool :=
  match context.action with
  | some (.autoMob mob) =>
      (context.stalling_timeout_state.getD Player.idle == Player.idle)
        && context.auto_mob_reachable_y_require_update mob.position.y
        && !context.is_stationary
  | _ => false

/-- The post-condition of a stalling update whose timeout ended: the stash
is consumed, and the next state is the stashed state (or `Idle`) unless the
auto-mob restart guard fired, in which case the stall restarts afresh. -/
def stall_ended_post (r : Option PlayerEntity) (context : PlayerContext)
    (max_timeout : Nat) : Prop :=
  ∀ pe, r = some pe →
    pe.context.stalling_timeout_state = none
    ∧ pe.state = (if stalling_restart context
                  then Player.stalling Timeout.default max_timeout
                  else context.stalling_timeout_state.getD .idle)

/-- The lowercase ASCII letters. -/
def lower_ascii : List Char :=
  ['a', 'b', 'c', 'd', 'e', 'f', 'g', 'h', 'i', 'j', 'k', 'l', 'm',
   'n', 'o', 'p', 'q', 'r', 's', 't', 'u', 'v', 'w', 'x', 'y', 'z']

/-! ## Claims -/

/-- C6 counterexample: with `up_jump_specific_key_should_jump = true` and
an initial `y` distance of 10 (within `SOFT_UP_JUMP_THRESHOLD = 16`),
`UpJumping::new` picks `SPAM_DELAY = 7`, not `SOFT_SPAM_DELAY = 12` as the
claim requires. -/
theorem claim_C6_counterexample :
    (UpJumping.new (Moving.new ⟨0, 0⟩ ⟨0, 10⟩ false none) false
      { baseContext with
        config :=
          { baseConfig with up_jump_specific_key_should_jump := true } }).spam_delay
      = SPAM_DELAY
    ∧ SPAM_DELAY ≠ SOFT_SPAM_DELAY := by
  constructor
  · rfl
  · decide

/-- C6 (amended): the spam delay of a freshly constructed `UpJumping`
equals `SOFT_SPAM_DELAY = 12` exactly when `up_jump_specific_key_should_jump`
is off and the initial `y` distance to the destination is at most
`SOFT_UP_JUMP_THRESHOLD = 16`; otherwise it equals `SPAM_DELAY = 7`. -/
theorem claim_C6 (moving : Moving) (random_bool : Bool)
    (context : PlayerContext) :
    (UpJumping.new moving random_bool context).spam_delay =
      if context.config.up_jump_specific_key_should_jump = false
          ∧ (moving.y_distance_direction_from true moving.pos).1
            ≤ SOFT_UP_JUMP_THRESHOLD
      then SOFT_SPAM_DELAY else SPAM_DELAY := by
  by_cases hb : context.config.up_jump_specific_key_should_jump
    <;> by_cases hy : (moving.y_distance_direction_from true moving.pos).1
        ≤ SOFT_UP_JUMP_THRESHOLD
    <;> simp [UpJumping.new, hb, hy]

/-- C1 counterexample: from the `Exitted` sub-state (cash-shop key set),
a tick with failed player detection leaves the sub-state at `Exitted`, and
a tick with successful detection moves it to `Stalling` — the exact
opposite of the claimed directions. -/
theorem claim_C1_counterexample :
    resultState (update_cash_shop_state
        { state := .cashShopThenExit ⟨.exitted⟩, context := baseContext }
        ⟨.exitted⟩ true false)
      = some (.cashShopThenExit ⟨.exitted⟩)
    ∧ resultState (update_cash_shop_state
        { state := .cashShopThenExit ⟨.exitted⟩, context := baseContext }
        ⟨.exitted⟩ false false)
      = some (.cashShopThenExit ⟨.stalling Timeout.default⟩) := by
  constructor <;> rfl

/-- C1 (amended): on every `Exitted` tick with the cash-shop key
configured, the sub-state stays `Exitted` when player detection failed,
and transitions to `Stalling` with a fresh timeout when detection
succeeded; the tick emits no key events and leaves the context unchanged. -/
theorem claim_C1 (player : PlayerEntity) (cash_shop : CashShop)
    (failed_to_detect_player detect_player_in_cash_shop : Bool)
    (key : KeyKind)
    (hkey : player.context.config.cash_shop_key = some key)
    (hstate : cash_shop.state = .exitted) :
    update_cash_shop_state player cash_shop failed_to_detect_player
        detect_player_in_cash_shop =
      some ({ player with
              state := .cashShopThenExit
                ⟨transition_if failed_to_detect_player .exitted
                  (.stalling Timeout.default)⟩ }, []) := by
  obtain ⟨cstate⟩ := cash_shop
  subst hstate
  unfold update_cash_shop_state
  rw [hkey]
  cases failed_to_detect_player <;> rfl

/-- C1 witness: the amended theorem applied at a concrete entity, on a
failed-detection tick. -/
theorem claim_C1_witness :
    update_cash_shop_state
        { state := .cashShopThenExit ⟨.exitted⟩, context := baseContext }
        ⟨.exitted⟩ true false =
      some ({ state := .cashShopThenExit
                ⟨transition_if true .exitted (.stalling Timeout.default)⟩
              context := baseContext }, []) :=
  claim_C1 _ _ true false .f1 rfl rfl

/-- C7: with `cash_shop_key` unset, `update_cash_shop_state` transitions
the player to `Idle` on the same tick with `clear_action_completed`
applied to the context and no key events emitted; clearing indeed leaves
the completion flag false. -/
theorem claim_C7 (player : PlayerEntity) (cash_shop : CashShop)
    (failed_to_detect_player detect_player_in_cash_shop : Bool)
    (hkey : player.context.config.cash_shop_key = none) :
    update_cash_shop_state player cash_shop failed_to_detect_player
        detect_player_in_cash_shop =
      some ({ player with
              state := .idle
              context := player.context.clear_action_completed }, [])
    ∧ (player.context.clear_action_completed).action_completed = false := by
  refine ⟨?_, rfl⟩
  unfold update_cash_shop_state
  rw [hkey]

/-- C7 witness: the theorem applied at a concrete entity without a
cash-shop key. -/
theorem claim_C7_witness :
    (update_cash_shop_state
        { state := .cashShopThenExit ⟨.entering⟩
          context := { baseContext with
            config := { baseConfig with cash_shop_key := none } } }
        ⟨.entering⟩ false false =
      some ({ state := .idle
              context := ({ baseContext with
                config := { baseConfig with cash_shop_key := none }
                  : PlayerContext }).clear_action_completed }, []))
    ∧ (({ baseContext with
          config := { baseConfig with cash_shop_key := none }
            : PlayerContext }).clear_action_completed).action_completed
        = false :=
  claim_C7 _ _ false false rfl

/-- C4: at the `OpeningMenu` timeout's `Ended` tick with the chat menu
undetected, the state re-enters `OpeningMenu` with `retry_count + 1` when
`retry_count < MAX_RETRY` and otherwise moves to `Completing` with the
failed flag false; a fresh `Chatting` starts within the bound and one
sub-state step preserves it, so every reachable `OpeningMenu` retry count
is at most `MAX_RETRY = 3`. -/
theorem claim_C4 :
    (∀ (c : Chatting) (t : Timeout) (r : Nat),
        c.state = .openingMenu t r → next_timeout_lifecycle t 35 = .ended →
        (Chat.update_opening_menu false c).map (fun x => x.1.state) =
          some (if r < Chat.MAX_RETRY then .openingMenu t (r + 1)
                else .completing t false))
    ∧ (∀ content : List Char, (Chatting.new content).retry_le)
    ∧ (∀ (detect : Bool) (c c2 : Chatting) (ev : List KeyEvent),
        c.retry_le → Chat.step detect c = some (c2, ev) → c2.retry_le) := by
  refine ⟨?_, ?_, ?_⟩
  · intro c t r h1 h2
    obtain ⟨st, content⟩ := c
    simp only at h1
    subst h1
    simp only [Chat.update_opening_menu, h2, Bool.false_eq_true, if_false,
      transition_if, Option.map_some]
    by_cases hr : r < Chat.MAX_RETRY <;> simp [hr]
  · intro content t r h
    simp only [Chatting.new] at h
    cases h
    decide
  · intro detect c c2 ev hc hstep
    obtain ⟨st, content⟩ := c
    intro t r h
    cases st with
    | openingMenu t0 r0 =>
        have hr0 : r0 ≤ Chat.MAX_RETRY := hc t0 r0 rfl
        simp only [Chat.step, Chat.update_opening_menu, transition_if] at hstep
        split at hstep
        · simp only [Option.some.injEq, Prod.mk.injEq] at hstep
          obtain ⟨rfl, rfl⟩ := hstep
          simp only at h
          injection h with h1 h2
          omega
        · split at hstep
          · simp only [Option.some.injEq, Prod.mk.injEq] at hstep
            obtain ⟨rfl, rfl⟩ := hstep
            simp only at h
            nomatch h
          · split at hstep
            next hlt =>
              simp only [Option.some.injEq, Prod.mk.injEq] at hstep
              obtain ⟨rfl, rfl⟩ := hstep
              simp only at h
              injection h with h1 h2
              simp only [decide_eq_true_eq] at hlt
              omega
            next hge =>
              simp only [Option.some.injEq, Prod.mk.injEq] at hstep
              obtain ⟨rfl, rfl⟩ := hstep
              simp only at h
              nomatch h
        · simp only [Option.some.injEq, Prod.mk.injEq] at hstep
          obtain ⟨rfl, rfl⟩ := hstep
          simp only at h
          injection h with h1 h2
          omega
    | typing t0 i0 =>
        simp only [Chat.step, Chat.update_typing] at hstep
        split at hstep
        · simp only [Option.some.injEq, Prod.mk.injEq] at hstep
          obtain ⟨rfl, rfl⟩ := hstep
          simp only at h
          nomatch h
        · simp only [Option.some.injEq, Prod.mk.injEq] at hstep
          obtain ⟨rfl, rfl⟩ := hstep
          simp only at h
          nomatch h
        · split at hstep
          · simp only [Option.some.injEq, Prod.mk.injEq] at hstep
            obtain ⟨rfl, rfl⟩ := hstep
            simp only at h
            nomatch h
          · split at hstep <;>
              · simp only [Option.some.injEq, Prod.mk.injEq] at hstep
                obtain ⟨rfl, rfl⟩ := hstep
                simp only at h
                nomatch h
    | completing t0 b0 =>
        simp only [Chat.step, Chat.update_completing] at hstep
        split at hstep <;>
          · simp only [Option.some.injEq, Prod.mk.injEq] at hstep
            obtain ⟨rfl, rfl⟩ := hstep
            simp only at h
            nomatch h

/-- C4 witness: the step behaviour at retry 0 on an expired timeout, the
fresh-state bound, and preservation across a concrete typing step. -/
theorem claim_C4_witness :
    ((Chat.update_opening_menu false ⟨.openingMenu ⟨35, 0, true⟩ 0, []⟩).map
        (fun x => x.1.state) =
      some (if 0 < Chat.MAX_RETRY then .openingMenu ⟨35, 0, true⟩ 1
            else .completing ⟨35, 0, true⟩ false))
    ∧ (Chatting.new []).retry_le
    ∧ (⟨.completing Timeout.default false, ['a']⟩ : Chatting).retry_le :=
  ⟨claim_C4.1 ⟨.openingMenu ⟨35, 0, true⟩ 0, []⟩ ⟨35, 0, true⟩ 0 rfl (by decide),
   claim_C4.2.1 [],
   claim_C4.2.2 false ⟨.typing ⟨3, 0, true⟩ 0, ['a']⟩
     ⟨.completing Timeout.default false, ['a']⟩ [.press .a, .press .enter]
     (fun t r h => nomatch h) rfl⟩

/-- Characters mapping to the same key keep `bind to_key_kind` equal. -/
theorem to_key_kind_bind_congr {x y : Option Char}
    (h : x.map to_key_kind = y.map to_key_kind) :
    x.bind to_key_kind = y.bind to_key_kind := by
  cases x <;> cases y <;> simp_all

/-- C10: `to_key_kind` maps every uppercase ASCII letter as its lowercase
counterpart (and tilde as backquote, double quote as apostrophe, written by
code point), and the `Typing` sub-state's behaviour — next state and
emitted keystrokes — is identical for contents whose characters map to the
same keys, hence for an uppercase letter in place of its lowercase form. -/
theorem claim_C10 :
    (∀ c ∈ lower_ascii, to_key_kind c.toUpper = to_key_kind c)
    ∧ to_key_kind (Char.ofNat 126) = to_key_kind (Char.ofNat 96)
    ∧ to_key_kind (Char.ofNat 34) = to_key_kind (Char.ofNat 39)
    ∧ (∀ c1 c2 : Chatting, c1.state = c2.state →
        c1.content.map to_key_kind = c2.content.map to_key_kind →
        (Chat.update_typing c1).map (fun x => (x.1.state, x.2)) =
          (Chat.update_typing c2).map (fun x => (x.1.state, x.2))) := by
  refine ⟨by decide, by decide, by decide, ?_⟩
  intro c1 c2 hst hmap
  obtain ⟨st1, content1⟩ := c1
  obtain ⟨st2, content2⟩ := c2
  simp only at hst hmap ⊢
  subst hst
  have hlen : content1.length = content2.length := by
    have h2 := congrArg List.length hmap
    simpa using h2
  cases st1 with
  | typing t0 i0 =>
      have hm : (content1.get? i0).map to_key_kind
          = (content2.get? i0).map to_key_kind := by
        rw [← List.get?_map, ← List.get?_map, hmap]
      have hbind := to_key_kind_bind_congr hm
      rcases hlc : next_timeout_lifecycle t0 3 with t1 | t1 | _ <;>
        simp only [Chat.update_typing, hlc]
      · rfl
      · rfl
      · rw [hbind]
        rcases hk : (content2.get? i0).bind to_key_kind with _ | key <;>
          simp only [hk]
        · rfl
        · rw [hlen]
          by_cases hif : i0 + 1 < content2.length <;> simp [hif]
  | openingMenu t0 r0 => rfl
  | completing t0 b0 => rfl

/-- C10 witness: the uppercase mapping at `a`, and the typing step emitting
the same keystrokes for content `A` as for content `a`. -/
theorem claim_C10_witness :
    to_key_kind ('a'.toUpper) = to_key_kind 'a'
    ∧ (Chat.update_typing ⟨.typing ⟨3, 0, true⟩ 0, ['A']⟩).map
        (fun x => (x.1.state, x.2)) =
      (Chat.update_typing ⟨.typing ⟨3, 0, true⟩ 0, ['a']⟩).map
        (fun x => (x.1.state, x.2)) :=
  ⟨claim_C10.1 'a' (by decide),
   claim_C10.2.2.2 ⟨.typing ⟨3, 0, true⟩ 0, ['A']⟩
     ⟨.typing ⟨3, 0, true⟩ 0, ['a']⟩ rfl (by decide)⟩

/-- C8 counterexample: with the stash empty, an auto-mob action whose `y`
requires re-solidification and a non-stationary player, the `Ended` tick
restarts the stall (`Stalling` with a fresh timeout) instead of going to
`Idle` as the claim requires. -/
theorem claim_C8_counterexample :
    stallResultState (update_stalling_state
        { state := .stalling ⟨90, 0, true⟩ 90
          context := { baseContext with
            action := some (.autoMob ⟨⟨0, 5⟩⟩)
            auto_mob_reachable_y_require_update := fun _ => true
            is_stationary := false } }
        ⟨90, 0, true⟩ 90)
      = some (.stalling Timeout.default 90)
    ∧ some (Player.stalling Timeout.default 90) ≠ some Player.idle := by
  constructor
  · rfl
  · decide

/-- C8 (amended): when the stalling timeout reaches `Ended`, the one-shot
stash is always consumed (`stalling_timeout_state` is `none` afterwards),
and the next state is the stashed state when present, `Idle` otherwise —
except when an auto-mob action makes the next state terminal, its `y`
requires reachable-`y` re-solidification and the player is not stationary,
in which case the stall restarts with a fresh timeout. -/
theorem claim_C8 (player : PlayerEntity) (timeout : Timeout)
    (max_timeout : Nat)
    (hend : next_timeout_lifecycle timeout max_timeout = .ended) :
    stall_ended_post (update_stalling_state player timeout max_timeout)
      player.context max_timeout := by
  intro pe hr
  simp only [update_stalling_state, next_action, hend] at hr
  rcases ha : player.context.action with _ | act
  all_goals try rcases act with mob | kk | _ | _ | _ | _ | pt
  all_goals simp only [ha] at hr
  case none =>
    obtain rfl := Option.some.inj hr
    exact ⟨rfl, by simp [stalling_restart, ha]⟩
  case some.autoMob =>
    split at hr
    next hguard =>
      split at hr
      next hstat =>
        obtain rfl := Option.some.inj hr
        refine ⟨rfl, ?_⟩
        simp only [stalling_restart, ha]
        simp only [Bool.and_eq_true] at hguard
        simp [hguard.1, hguard.2, hstat]
      next hstat =>
        obtain rfl := Option.some.inj hr
        refine ⟨?_, ?_⟩
        · simp [PlayerContext.mark_action_completed_if,
            PlayerContext.auto_mob_track_reachable_y]
          all_goals (split <;> rfl)
        · simp only [stalling_restart, ha]
          simp only [Bool.not_eq_true] at hstat
          simp [hstat, PlayerContext.mark_action_completed_if]
    next hguard =>
      obtain rfl := Option.some.inj hr
      refine ⟨?_, ?_⟩
      · simp [PlayerContext.mark_action_completed_if]
        all_goals (split <;> rfl)
      · simp only [stalling_restart, ha]
        simp only [Bool.and_eq_true, not_and] at hguard
        have : ((player.context.stalling_timeout_state.getD Player.idle ==
            Player.idle) && player.context.auto_mob_reachable_y_require_update
              mob.position.y) = false := by
          by_cases h1 : (player.context.stalling_timeout_state.getD Player.idle ==
              Player.idle) = true
            <;> by_cases h2 : player.context.auto_mob_reachable_y_require_update
              mob.position.y = true
            <;> simp_all
        rw [this]
        simp [PlayerContext.mark_action_completed_if]
  case some.key =>
    obtain rfl := Option.some.inj hr
    refine ⟨?_, ?_⟩
    · simp [PlayerContext.mark_action_completed_if]
      all_goals (split <;> rfl)
    · simp only [stalling_restart, ha]
      simp [PlayerContext.mark_action_completed_if]
  case some.move =>
    obtain rfl := Option.some.inj hr
    refine ⟨?_, ?_⟩
    · simp [PlayerContext.mark_action_completed_if]
      all_goals (split <;> rfl)
    · simp only [stalling_restart, ha]
      simp [PlayerContext.mark_action_completed_if]
  case some.pingPong =>
    obtain rfl := Option.some.inj hr
    refine ⟨?_, ?_⟩
    · simp [PlayerContext.mark_action_completed_if]
      all_goals (split <;> rfl)
    · simp only [stalling_restart, ha]
      simp [PlayerContext.mark_action_completed_if]
  case some.solveRune =>
    obtain rfl := Option.some.inj hr
    exact ⟨rfl, by simp [stalling_restart, ha]⟩
  case some.unstuck => nomatch hr
  case some.panic => nomatch hr

/-- C8 witness: the amended theorem at a concrete ended stall whose stash
holds `Detecting`; the stash is restored and consumed. -/
theorem claim_C8_witness :
    stall_ended_post (update_stalling_state
        { state := .stalling ⟨90, 0, true⟩ 90
          context := { baseContext with
            action := some .move
            stalling_timeout_state := some .detecting } }
        ⟨90, 0, true⟩ 90)
      { baseContext with
        action := some .move
        stalling_timeout_state := some .detecting } 90
    ∧ stallResultState (update_stalling_state
        { state := .stalling ⟨90, 0, true⟩ 90
          context := { baseContext with
            action := some .move
            stalling_timeout_state := some .detecting } }
        ⟨90, 0, true⟩ 90) = some .detecting :=
  ⟨claim_C8 _ ⟨90, 0, true⟩ 90 (by decide), by decide⟩

/-- In `Panicking`'s `Completing` sub-state, `update_completing` produces
`ChangingChannel` only at the `Ended` tick of its 245-tick timeout with the
minimap idle and another player present. -/
theorem panic_update_completing_changing (pto : PanicTo)
    (minimap_state : Minimap) (t : Timeout) (c : Bool) (pk2 : Panicking)
    (t2 : Timeout) (r2 : Nat)
    (hr : Panic.update_completing ⟨.completing t c, pto⟩ minimap_state
      = some pk2)
    (hpk : pk2.state = .changingChannel t2 r2) :
    (∃ idle, minimap_state = .idle idle ∧ idle.has_any_other_player = true)
    ∧ next_timeout_lifecycle t 245 = .ended := by
  simp only [Panic.update_completing] at hr
  split at hr
  · obtain rfl := Option.some.inj hr
    simp only at hpk
    nomatch hpk
  · split at hr
    next hlc =>
      rcases minimap_state with _ | i
      · simp only at hr
        obtain rfl := Option.some.inj hr
        simp only at hpk
        nomatch hpk
      · simp only [transition_if] at hr
        split at hr
        next hplayer =>
          obtain rfl := Option.some.inj hr
          exact ⟨⟨i, rfl, hplayer⟩, hlc⟩
        next hplayer =>
          obtain rfl := Option.some.inj hr
          simp only at hpk
          nomatch hpk
    next t3 hlc =>
      obtain rfl := Option.some.inj hr
      simp only at hpk
      nomatch hpk
    next t3 hlc =>
      obtain rfl := Option.some.inj hr
      simp only at hpk
      nomatch hpk

/-- C5: from a `Completing` sub-state, whenever a panicking tick leaves the
player in `Panicking` with the `ChangingChannel` sub-state, the minimap was
idle with at least one other player present and the `Completing` timeout
had reached its `Ended` phase (over its 245-tick bound). -/
theorem claim_C5 (player : PlayerEntity) (minimap_state : Minimap)
    (panicking : Panicking) (d1 d2 : Bool) (t : Timeout) (c : Bool)
    (hstate : panicking.state = .completing t c) :
    panic_completing_to_changing
      (update_panicking_state player minimap_state panicking d1 d2)
      minimap_state t := by
  intro pe ev pk t2 r2 hr hps hpk
  obtain ⟨pst, pto⟩ := panicking
  simp only at hstate
  subst hstate
  rcases hk1 : player.context.config.change_channel_key with _ | k1
  · simp only [update_panicking_state, hk1, Option.some.injEq,
      Prod.mk.injEq] at hr
    obtain ⟨rfl, rfl⟩ := hr
    simp only at hps
    nomatch hps
  · rcases hk2 : player.context.config.to_town_key with _ | k2
    · simp only [update_panicking_state, hk1, hk2, Option.some.injEq,
        Prod.mk.injEq] at hr
      obtain ⟨rfl, rfl⟩ := hr
      simp only at hps
      nomatch hps
    · rcases huc : Panic.update_completing ⟨.completing t c, pto⟩ minimap_state
          with _ | pk2
      · simp only [update_panicking_state, hk1, hk2, Panic.step, huc,
          Option.map_none] at hr
        nomatch hr
      · simp only [update_panicking_state, hk1, hk2, Panic.step, huc,
          Option.map_some] at hr
        rcases hact : next_action player.context with _ | act <;>
            simp only [hact, Option.some.injEq, Prod.mk.injEq] at hr <;>
            obtain ⟨rfl, rfl⟩ := hr <;> simp only [transition_if] at hps
        · split at hps
          · split at hps
            · nomatch hps
            · injection hps with hpe
              subst hpe
              exact panic_update_completing_changing pto minimap_state t c
                _ t2 r2 huc hpk
          · nomatch hps
        · split at hps
          · nomatch hps
          · injection hps with hpe
            subst hpe
            exact panic_update_completing_changing pto minimap_state t c
              _ t2 r2 huc hpk

/-- C5 witness: the theorem at a concrete channel panic whose completing
timeout has ended on an idle minimap with another player; the resulting
state is indeed `ChangingChannel` with a fresh timeout. -/
theorem claim_C5_witness :
    panic_completing_to_changing
      (update_panicking_state
        { state := .panicking ⟨.completing ⟨245, 0, true⟩ false, .channel⟩
          context := { baseContext with action := some .solveRune } }
        (.idle ⟨true⟩) ⟨.completing ⟨245, 0, true⟩ false, .channel⟩
        true true)
      (.idle ⟨true⟩) ⟨245, 0, true⟩
    ∧ resultState (update_panicking_state
        { state := .panicking ⟨.completing ⟨245, 0, true⟩ false, .channel⟩
          context := { baseContext with action := some .solveRune } }
        (.idle ⟨true⟩) ⟨.completing ⟨245, 0, true⟩ false, .channel⟩
        true true)
      = some (.panicking ⟨.changingChannel Timeout.default 0, .channel⟩) :=
  ⟨claim_C5 _ _ _ true true ⟨245, 0, true⟩ false rfl, by decide⟩

/-- C9: with both panic keys configured and no action-queue head, the tick
forces `Idle` exactly for the non-town target: the resulting player state
is the computed next state for a `Town` panic (`Idle` only when its
`Completing` sub-state carries `completed = true`) and `Idle` for a
`Channel` panic. -/
theorem claim_C9 (player : PlayerEntity) (minimap_state : Minimap)
    (panicking : Panicking) (d1 d2 : Bool) (k1 k2 : KeyKind)
    (pk : Panicking) (ev : List KeyEvent)
    (hk1 : player.context.config.change_channel_key = some k1)
    (hk2 : player.context.config.to_town_key = some k2)
    (hact : next_action player.context = none)
    (hstep : Panic.step panicking minimap_state d1 d2 k1 k2 = some (pk, ev)) :
    (update_panicking_state player minimap_state panicking d1 d2).map
        (fun pe => pe.1.state) =
      some (transition_if (panicking.to_ == PanicTo.town)
        (if pk.completed then Player.idle else .panicking pk)
        Player.idle) := by
  simp only [update_panicking_state, hk1, hk2, hstep, hact, Option.map_some]
  rfl

/-- C9 witness: a town panic with an empty action queue continues as
`Panicking` (its going-to-town sub-state just started). -/
theorem claim_C9_witness :
    (update_panicking_state
        { state := .panicking ⟨.goingToTown Timeout.default 0, .town⟩
          context := baseContext }
        .detecting ⟨.goingToTown Timeout.default 0, .town⟩ false false).map
        (fun pe => pe.1.state) =
      some (transition_if ((Panicking.mk (.goingToTown Timeout.default 0)
          .town).to_ == PanicTo.town)
        (if (Panicking.mk (.goingToTown ⟨0, 0, true⟩ 0) .town).completed
         then Player.idle
         else .panicking ⟨.goingToTown ⟨0, 0, true⟩ 0, .town⟩)
        Player.idle) :=
  claim_C9 _ .detecting _ false false .f1 .f2
    ⟨.goingToTown ⟨0, 0, true⟩ 0, .town⟩ [.press .f2] rfl rfl rfl rfl

/-- `adjust.rs`'s `update_from_action` never increases the outer moving
timeout of an `Adjusting` result: it keeps the player unchanged, moves to a
non-`Adjusting` state, or (through the auto-mob arbitration) builds a fresh
`Adjusting` whose timeout starts at zero. -/
theorem adjust_ufa_current_le (player : PlayerEntity)
    (minimap_state : Minimap) (moving : Moving) (n : Nat)
    (hplayer : ∀ a2, player.state = .adjusting a2 →
      a2.moving.timeout.current ≤ n)
    (pe : PlayerEntity)
    (hr : adjust_update_from_action player minimap_state moving = some pe)
    (a2 : Adjusting) (hps : pe.state = .adjusting a2) :
    a2.moving.timeout.current ≤ n := by
  simp only [adjust_update_from_action, next_action] at hr
  rcases ha : player.context.action with _ | act
  · simp only [ha] at hr
    obtain rfl := Option.some.inj hr
    exact hplayer a2 hps
  · rcases act with mob | kk | _ | _ | _ | _ | pt <;> simp only [ha] at hr
    · obtain rfl := Option.some.inj hr
      rcases hsel : player.context.auto_mob_selector
          (moving.x_distance_direction_from false moving.pos).1
          (moving.x_distance_direction_from false moving.pos).2
          (moving.y_distance_direction_from false moving.pos).1
        with _ | _ | _ | _ | _ | _ | _ <;>
        simp only [update_from_auto_mob_action, hsel] at hps
      · exact hplayer a2 hps
      · injection hps with h2
        subst h2
        exact Nat.zero_le n
      all_goals nomatch hps
    · rcases hw : kk.with_ with _ | _ | _ <;> simp only [hw] at hr
      · obtain rfl := Option.some.inj hr
        exact hplayer a2 hps
      · split at hr
        · obtain rfl := Option.some.inj hr
          exact hplayer a2 hps
        · obtain rfl := Option.some.inj hr
          simp only [transition_if] at hps
          split at hps <;> nomatch hps
      · split at hr
        · obtain rfl := Option.some.inj hr
          nomatch hps
        · obtain rfl := Option.some.inj hr
          exact hplayer a2 hps
    · obtain rfl := Option.some.inj hr
      exact hplayer a2 hps
    · nomatch hr
    · obtain rfl := Option.some.inj hr
      exact hplayer a2 hps
    · nomatch hr
    · nomatch hr

/-- C2: on an `Adjusting` tick whose outer moving timeout is in the
`Updated` phase with `completed = false` and the inner `adjust_timeout`
started, `update_adjusting_state` does not increase
`moving.timeout.current`: the tick's increment is cancelled by the freeze
decrement, and any `Adjusting` state left behind carries a timeout
`current` no larger than before. -/
theorem claim_C2 (player : PlayerEntity) (minimap_state : Minimap)
    (a : Adjusting)
    (hstate : player.state = .adjusting a)
    (hstarted : a.moving.timeout.started = true)
    (hcur : a.moving.timeout.current < MOVE_TIMEOUT)
    (hcompleted : a.moving.completed = false)
    (hadj : a.adjust_timeout.started = true) :
    adjusting_current_le (update_adjusting_state player minimap_state)
      a.moving.timeout.current := by
  intro pe ev a2 hr hps
  obtain ⟨st, ctx⟩ := player
  simp only at hstate
  subst hstate
  rcases hpos : ctx.last_known_pos with _ | cur_pos
  · simp only [update_adjusting_state, hpos] at hr
    nomatch hr
  · have hlc : next_moving_lifecycle_with_axis a.moving cur_pos MOVE_TIMEOUT
        .both = .updated { a.moving with
          pos := cur_pos
          timeout := ⟨a.moving.timeout.current + 1,
            a.moving.timeout.total + 1, true⟩ } := by
      simp [next_moving_lifecycle_with_axis, next_timeout_lifecycle, hstarted,
        Nat.not_le.mpr hcur]
    simp only [update_adjusting_state, hpos, hlc, hadj, hcompleted,
      Moving.timeout_current, Bool.not_true, Bool.false_and, Bool.true_or,
      Bool.not_false, Nat.add_sub_cancel] at hr
    split at hr
    · simp only [Option.some.injEq, Prod.mk.injEq] at hr
      obtain ⟨rfl, rfl⟩ := hr
      simp only at hps
      nomatch hps
    · rw [Option.map_eq_some'] at hr
      obtain ⟨pe2, hufa, heq⟩ := hr
      simp only [Prod.mk.injEq] at heq
      obtain ⟨rfl, rfl⟩ := heq
      refine adjust_ufa_current_le _ minimap_state _ _ ?_ pe2 hufa a2 hps
      intro a3 h3
      simp only at h3
      injection h3 with h4
      subst h4
      simp only [Adjusting.withMoving, if_true]
      split <;> first
        | omega
        | (split <;> simp_all)

/-- C2 witness: the theorem at the repository's own freeze scenario
(outer timeout at 3, inner adjust started); the outer `current` indeed
stays at 3. -/
theorem claim_C2_witness :
    adjusting_current_le (update_adjusting_state
      { state := .adjusting
          ⟨⟨⟨0, 0⟩, ⟨1, 0⟩, true, none, false, ⟨3, 0, true⟩⟩, ⟨1, 0, true⟩⟩
        context := baseContext }
      Minimap.detecting) 3
    ∧ resultState (update_adjusting_state
      { state := .adjusting
          ⟨⟨⟨0, 0⟩, ⟨1, 0⟩, true, none, false, ⟨3, 0, true⟩⟩, ⟨1, 0, true⟩⟩
        context := baseContext }
      Minimap.detecting) =
      some (.adjusting
        ⟨⟨⟨0, 0⟩, ⟨1, 0⟩, true, none, false, ⟨3, 1, true⟩⟩, ⟨2, 1, true⟩⟩) :=
  ⟨claim_C2 _ Minimap.detecting
    ⟨⟨⟨0, 0⟩, ⟨1, 0⟩, true, none, false, ⟨3, 0, true⟩⟩, ⟨1, 0, true⟩⟩
    rfl rfl (by decide) rfl rfl, by decide⟩

/-- `fall.rs`'s `update_from_action`, driven by anything but an auto-mob
action, preserves a completed `Falling` result: it keeps the player
unchanged or moves to a non-`Falling` state. -/
theorem fall_ufa_completed (player : PlayerEntity) (minimap_state : Minimap)
    (moving : Moving)
    (hact : ∀ mob, player.context.action ≠ some (.autoMob mob))
    (hplayer : ∀ f2, player.state = .falling f2 → f2.moving.completed = true)
    (pe : PlayerEntity) (ev : List KeyEvent)
    (hr : fall_update_from_action player minimap_state moving = some (pe, ev))
    (f2 : Falling) (hps : pe.state = .falling f2) :
    f2.moving.completed = true := by
  simp only [fall_update_from_action, next_action] at hr
  rcases ha : player.context.action with _ | act
  · simp only [ha, Option.some.injEq, Prod.mk.injEq] at hr
    obtain ⟨rfl, rfl⟩ := hr
    exact hplayer f2 hps
  · rcases act with mob | kk | _ | _ | _ | _ | pt <;> simp only [ha] at hr
    · exact absurd ha (hact mob)
    · rcases hw : kk.with_ with _ | _ | _ <;>
        simp only [hw, Option.some.injEq, Prod.mk.injEq] at hr
      · obtain ⟨rfl, rfl⟩ := hr
        exact hplayer f2 hps
      · obtain ⟨rfl, rfl⟩ := hr
        exact hplayer f2 hps
      · split at hr
        · obtain ⟨rfl, rfl⟩ := hr
          nomatch hps
        · obtain ⟨rfl, rfl⟩ := hr
          exact hplayer f2 hps
    · simp only [Option.some.injEq, Prod.mk.injEq] at hr
      obtain ⟨rfl, rfl⟩ := hr
      exact hplayer f2 hps
    · simp only [Option.some.injEq, Prod.mk.injEq] at hr
      obtain ⟨rfl, rfl⟩ := hr
      exact hplayer f2 hps
    · simp only [Option.some.injEq, Prod.mk.injEq] at hr
      obtain ⟨rfl, rfl⟩ := hr
      exact hplayer f2 hps
    · nomatch hr
    · nomatch hr

/-- C3: on a `Falling` tick in the `Updated` phase (no auto-mob action
pending), once the observed position is below the anchor — or `completed`
already holds — the `Falling` state left behind has `moving.completed =
true`: completion is set by the drop test and never reset by this state. -/
theorem claim_C3 (player : PlayerEntity) (minimap_state : Minimap)
    (f : Falling) (p : Point)
    (hstate : player.state = .falling f)
    (hpos : player.context.last_known_pos = some p)
    (hstarted : f.moving.timeout.started = true)
    (hcur : f.moving.timeout.current < FALL_TIMEOUT)
    (hact : ∀ mob, next_action player.context ≠ some (.autoMob mob))
    (hcond : f.moving.completed = true ∨ p.y < f.anchor.y) :
    falling_completed_after (update_falling_state player minimap_state) := by
  intro pe ev f2 hr hps
  obtain ⟨st, ctx⟩ := player
  simp only [next_action] at hstate hpos hact
  subst hstate
  have hlc : next_moving_lifecycle_with_axis f.moving p FALL_TIMEOUT
      .vertical = .updated { f.moving with
        pos := p
        timeout := ⟨f.moving.timeout.current + 1,
          f.moving.timeout.total + 1, true⟩ } := by
    simp [next_moving_lifecycle_with_axis, next_timeout_lifecycle, hstarted,
      Nat.not_le.mpr hcur]
  simp only [update_falling_state, hpos, hlc] at hr
  rw [Option.map_eq_some'] at hr
  obtain ⟨⟨pe2, ev2⟩, hufa, heq⟩ := hr
  simp only [Prod.mk.injEq] at heq
  obtain ⟨rfl, rfl⟩ := heq
  refine fall_ufa_completed _ minimap_state _ hact ?_ pe2 ev2 hufa f2 hps
  intro f3 h3
  simp only at h3
  injection h3 with h4
  subst h4
  simp only [Falling.withMoving, Moving.withCompleted, Moving.timeout_current]
  split
  next hguard =>
    split
    next => rfl
    next hy =>
      rcases hcond with hc | hc
      · rw [hc] at hguard
        simp at hguard
      · exact absurd (by omega : p.y - f.anchor.y < 0) hy
  next hguard =>
    simp only [Bool.not_eq_true, Bool.not_eq_false, Bool.not_eq_true'] at hguard
    split
    next => exact hguard
    next => exact hguard

/-- C3 witness: the theorem at the repository's own completion scenario
(position below anchor on an updated tick); the result indeed carries
`completed = true`. -/
theorem claim_C3_witness :
    falling_completed_after (update_falling_state
      { state := .falling
          ⟨⟨⟨100, 100⟩, ⟨100, 95⟩, false, none, false, ⟨0, 0, true⟩⟩,
            ⟨100, 120⟩, false⟩
        context := { baseContext with
                     last_known_pos := some ⟨100, 100⟩ } }
      Minimap.detecting)
    ∧ resultState (update_falling_state
      { state := .falling
          ⟨⟨⟨100, 100⟩, ⟨100, 95⟩, false, none, false, ⟨0, 0, true⟩⟩,
            ⟨100, 120⟩, false⟩
        context := { baseContext with
                     last_known_pos := some ⟨100, 100⟩ } }
      Minimap.detecting) =
      some (.falling
        ⟨⟨⟨100, 100⟩, ⟨100, 95⟩, false, none, true, ⟨1, 1, true⟩⟩,
          ⟨100, 120⟩, false⟩) :=
  ⟨claim_C3 _ Minimap.detecting
    ⟨⟨⟨100, 100⟩, ⟨100, 95⟩, false, none, false, ⟨0, 0, true⟩⟩,
      ⟨100, 120⟩, false⟩ ⟨100, 100⟩
    rfl rfl rfl (by decide) (fun mob h => by simp [next_action, baseContext] at h) (by right; decide),
   by decide⟩
